import Mathlib

/-!
Verification of the SSSonector monitoring scripts.

The development shallowly embeds the Python sources:

* `src/monitoring/tunnel_monitor.py` — the curses dashboard: `get_snmp_value`,
  `calculate_rate`, the colour-threshold classification inside `main`, and the
  per-cycle bookkeeping of previous counter values.
* `src/monitoring/ftp/monitor_ftp_transfer.py` — the HTTP/JSON exporter:
  throughput-string parsing, the metrics dictionary, the bounded history, and
  the JSON response of `WebHandler.do_GET`.
* `src/scripts/snmp_web_monitor.py` — the Flask exporter: per-metric update
  with failure-skipping in `update_metrics`.

Numbers are modelled by `ℤ` (Python ints) and `ℚ` (exact stand-in for Python
floats; every claim examined here only involves arithmetic that is exact in
both models).  Code that can raise an exception is modelled with `Option`:
`none` means the exception propagates.  Subprocess/SNMP responses are modelled
as inductive outcome types at the process boundary, mirroring the parse
classification the Python code performs on the raw strings.
-/

namespace SSSonector

/-- Outcome of one `snmpget` subprocess call as classified by
`get_snmp_value` (tunnel_monitor.py lines 17-56): a recognised typed value
(`Counter64:`, `Gauge32:` or `INTEGER:` in the output), a returncode-0 output
of unknown type, or a failure (nonzero returncode, or any raised exception,
including timeout and unreachable host). -/
inductive SnmpReply
  | failure
  | counter64 (v : ℤ)
  | gauge32 (v : ℤ)
  | integer (v : ℤ)
  | unknown
deriving DecidableEq

/-- Embeds `get_snmp_value` of tunnel_monitor.py (lines 17-56): recognised
typed values are returned as ints; every other path — command failure,
unknown SNMP type, any exception — returns 0. -/
def get_snmp_value : SnmpReply → ℤ
  | SnmpReply.counter64 v => v
  | SnmpReply.gauge32 v => v
  | SnmpReply.integer v => v
  | SnmpReply.unknown => 0
  | SnmpReply.failure => 0

/-- Embeds `calculate_rate` of tunnel_monitor.py (lines 65-68):

    def calculate_rate(current, previous, interval):
        if previous is None:
            return 0
        return (current - previous) / interval

The Python division raises `ZeroDivisionError` when `interval == 0`; that is
modelled as `none`.  There is no guard on `current < previous` and no guard on
`interval <= 0`. -/
def calculate_rate (current : ℚ) (previous : Option ℚ) (interval : ℚ) : Option ℚ :=
  match previous with
  | none => some 0
  | some prev => if interval = 0 then none else some ((current - prev) / interval)

/-- Severity band of the colour classification in `main`
(tunnel_monitor.py lines 150-163): green/normal, yellow/warning,
red/critical. -/
inductive Severity
  | normal
  | warning
  | critical
deriving DecidableEq

/-- Embeds the colour-threshold chain of `main` (tunnel_monitor.py
lines 150-163), parameterised by the two thresholds:

    if value > critical_threshold: red
    elif value > warn_threshold: yellow
    else: green

Both comparisons are strict, exactly as in the source. -/
def classify (value warn_threshold critical_threshold : ℚ) : Severity :=
  if value > critical_threshold then Severity.critical
  else if value > warn_threshold then Severity.warning
  else Severity.normal

/-- The instantiation actually written in the source for CPU and memory
percentages: thresholds 60 (yellow) and 80 (red). -/
def cpu_color (value : ℚ) : Severity := classify value 60 80

/-- The four `prev_*` variables of `main` (tunnel_monitor.py lines 102-106),
`None` before the first cycle. -/
structure TunnelPrev where
  prev_server_bytes_in : Option ℤ
  prev_server_bytes_out : Option ℤ
  prev_client_bytes_in : Option ℤ
  prev_client_bytes_out : Option ℤ
deriving DecidableEq

/-- The ten SNMP replies one cycle of `main` receives (tunnel_monitor.py
lines 115-129), one per (endpoint, metric) pair. -/
structure TunnelReplies where
  server_bytes_in : SnmpReply
  server_bytes_out : SnmpReply
  server_conns : SnmpReply
  server_cpu : SnmpReply
  server_mem : SnmpReply
  client_bytes_in : SnmpReply
  client_bytes_out : SnmpReply
  client_conns : SnmpReply
  client_cpu : SnmpReply
  client_mem : SnmpReply
deriving DecidableEq

/-- Everything one cycle of `main` renders: the ten sampled values and the
four derived rates (tunnel_monitor.py lines 115-135). -/
structure TunnelView where
  server_bytes_in : ℤ
  server_bytes_out : ℤ
  server_conns : ℤ
  server_cpu : ℤ
  server_mem : ℤ
  client_bytes_in : ℤ
  client_bytes_out : ℤ
  client_conns : ℤ
  client_cpu : ℤ
  client_mem : ℤ
  server_in_rate : Option ℚ
  server_out_rate : Option ℚ
  client_in_rate : Option ℚ
  client_out_rate : Option ℚ
deriving DecidableEq

/-- `update_interval = 1.0` (tunnel_monitor.py line 108), the divisor passed
to every `calculate_rate` call in `main`. -/
def update_interval : ℚ := 1

/-- One iteration of the `while True` loop of `main` (tunnel_monitor.py
lines 110-199): sample the ten values through `get_snmp_value`, derive the
four rates with `calculate_rate` against the stored previous values, then
store the four current byte counters as the new previous values
(lines 195-199, executed unconditionally every cycle). -/
def tunnelCycle (st : TunnelPrev) (rs : TunnelReplies) : TunnelView × TunnelPrev :=
  let sbi := get_snmp_value rs.server_bytes_in
  let sbo := get_snmp_value rs.server_bytes_out
  let scn := get_snmp_value rs.server_conns
  let scp := get_snmp_value rs.server_cpu
  let smm := get_snmp_value rs.server_mem
  let cbi := get_snmp_value rs.client_bytes_in
  let cbo := get_snmp_value rs.client_bytes_out
  let ccn := get_snmp_value rs.client_conns
  let ccp := get_snmp_value rs.client_cpu
  let cmm := get_snmp_value rs.client_mem
  ({ server_bytes_in := sbi
     server_bytes_out := sbo
     server_conns := scn
     server_cpu := scp
     server_mem := smm
     client_bytes_in := cbi
     client_bytes_out := cbo
     client_conns := ccn
     client_cpu := ccp
     client_mem := cmm
     server_in_rate :=
       calculate_rate (sbi : ℚ) (st.prev_server_bytes_in.map fun n => (n : ℚ)) update_interval
     server_out_rate :=
       calculate_rate (sbo : ℚ) (st.prev_server_bytes_out.map fun n => (n : ℚ)) update_interval
     client_in_rate :=
       calculate_rate (cbi : ℚ) (st.prev_client_bytes_in.map fun n => (n : ℚ)) update_interval
     client_out_rate :=
       calculate_rate (cbo : ℚ) (st.prev_client_bytes_out.map fun n => (n : ℚ)) update_interval },
   { prev_server_bytes_in := some sbi
     prev_server_bytes_out := some sbo
     prev_client_bytes_in := some cbi
     prev_client_bytes_out := some cbo })

/-- C1 counterexample: a counter reset from 1500 down to 200 over 1 second
makes `calculate_rate` return -1300 — a negative rate — not the 0 the claim
asserts. -/
theorem calculate_rate_reset_cex :
    calculate_rate 200 (some 1500) 1 = some (-1300) ∧
    calculate_rate 200 (some 1500) 1 ≠ some 0 := by
  constructor
  · unfold calculate_rate
    norm_num
  · unfold calculate_rate
    norm_num

/-- C1 (amended): with `previous` present and `current < previous`,
`calculate_rate` performs the unguarded division and returns
`(current - previous) / elapsed`, which is strictly negative whenever
`elapsed > 0`; the next cycle does use this cycle's current values as the new
baseline (`tunnelCycle` stores every sampled byte counter as the new
previous value). -/
theorem calculate_rate_reset_goes_negative (current prev elapsed : ℚ)
    (st : TunnelPrev) (rs : TunnelReplies)
    (hlt : current < prev) (hpos : 0 < elapsed) :
    calculate_rate current (some prev) elapsed = some ((current - prev) / elapsed) ∧
    (current - prev) / elapsed < 0 ∧
    (tunnelCycle st rs).2.prev_server_bytes_in = some (get_snmp_value rs.server_bytes_in) ∧
    (tunnelCycle st rs).2.prev_server_bytes_out = some (get_snmp_value rs.server_bytes_out) ∧
    (tunnelCycle st rs).2.prev_client_bytes_in = some (get_snmp_value rs.client_bytes_in) ∧
    (tunnelCycle st rs).2.prev_client_bytes_out = some (get_snmp_value rs.client_bytes_out) := by
  refine ⟨?_, ?_, rfl, rfl, rfl, rfl⟩
  · simp only [calculate_rate]
    rw [if_neg (ne_of_gt hpos)]
  · exact div_neg_of_neg_of_pos (by linarith) hpos

/-- C1 witness: the amended statement at current = 200, previous = 1500,
elapsed = 1, with an all-`none` previous state and all-failure replies. -/
theorem calculate_rate_reset_goes_negative_witness :
    calculate_rate 200 (some 1500) 1 = some (((200 : ℚ) - 1500) / 1) ∧
    ((200 : ℚ) - 1500) / 1 < 0 ∧
    (tunnelCycle ⟨none, none, none, none⟩
        ⟨SnmpReply.failure, SnmpReply.failure, SnmpReply.failure, SnmpReply.failure,
         SnmpReply.failure, SnmpReply.failure, SnmpReply.failure, SnmpReply.failure,
         SnmpReply.failure, SnmpReply.failure⟩).2.prev_server_bytes_in =
      some (get_snmp_value SnmpReply.failure) ∧
    (tunnelCycle ⟨none, none, none, none⟩
        ⟨SnmpReply.failure, SnmpReply.failure, SnmpReply.failure, SnmpReply.failure,
         SnmpReply.failure, SnmpReply.failure, SnmpReply.failure, SnmpReply.failure,
         SnmpReply.failure, SnmpReply.failure⟩).2.prev_server_bytes_out =
      some (get_snmp_value SnmpReply.failure) ∧
    (tunnelCycle ⟨none, none, none, none⟩
        ⟨SnmpReply.failure, SnmpReply.failure, SnmpReply.failure, SnmpReply.failure,
         SnmpReply.failure, SnmpReply.failure, SnmpReply.failure, SnmpReply.failure,
         SnmpReply.failure, SnmpReply.failure⟩).2.prev_client_bytes_in =
      some (get_snmp_value SnmpReply.failure) ∧
    (tunnelCycle ⟨none, none, none, none⟩
        ⟨SnmpReply.failure, SnmpReply.failure, SnmpReply.failure, SnmpReply.failure,
         SnmpReply.failure, SnmpReply.failure, SnmpReply.failure, SnmpReply.failure,
         SnmpReply.failure, SnmpReply.failure⟩).2.prev_client_bytes_out =
      some (get_snmp_value SnmpReply.failure) :=
  calculate_rate_reset_goes_negative 200 1500 1 ⟨none, none, none, none⟩
    ⟨SnmpReply.failure, SnmpReply.failure, SnmpReply.failure, SnmpReply.failure,
     SnmpReply.failure, SnmpReply.failure, SnmpReply.failure, SnmpReply.failure,
     SnmpReply.failure, SnmpReply.failure⟩ (by norm_num) (by norm_num)

/-- C5 counterexample: `calculate_rate` has no guard on the elapsed time.
With elapsed = 0 and a previous value present the division raises
`ZeroDivisionError` (modelled `none`) instead of returning 0, and with
elapsed = -1 it happily divides and returns -5, not 0. -/
theorem calculate_rate_elapsed_cex :
    calculate_rate 10 (some 5) 0 = none ∧
    calculate_rate 10 (some 5) (-1) = some (-5) ∧
    calculate_rate 10 (some 5) (-1) ≠ some 0 := by
  refine ⟨rfl, ?_, ?_⟩
  · unfold calculate_rate
    norm_num
  · unfold calculate_rate
    norm_num

/-- C5 (amended): the division is never guarded.  For any nonzero elapsed
time (positive or negative) the function returns
`(current - previous) / elapsed`, and for elapsed = 0 with a previous value
present it raises `ZeroDivisionError` (modelled `none`) rather than
returning 0. -/
theorem calculate_rate_elapsed_unguarded (current prev elapsed : ℚ)
    (h : elapsed ≠ 0) :
    calculate_rate current (some prev) elapsed = some ((current - prev) / elapsed) ∧
    calculate_rate current (some prev) 0 = none := by
  constructor
  · simp only [calculate_rate]
    rw [if_neg h]
  · rfl

/-- C5 witness: the amended statement at current = 10, previous = 5,
elapsed = -1. -/
theorem calculate_rate_elapsed_unguarded_witness :
    calculate_rate 10 (some 5) (-1) = some (((10 : ℚ) - 5) / (-1)) ∧
    calculate_rate 10 (some 5) 0 = none :=
  calculate_rate_elapsed_unguarded 10 5 (-1) (by norm_num)

/-- C6: with a previous value present, `current ≥ previous` and a positive
elapsed time, the rate is exactly `(current - previous) / elapsed`. -/
theorem calculate_rate_exact_delta (current prev elapsed : ℚ)
    (hle : prev ≤ current) (hpos : 0 < elapsed) :
    calculate_rate current (some prev) elapsed = some ((current - prev) / elapsed) := by
  simp only [calculate_rate]
  rw [if_neg (ne_of_gt hpos)]

/-- C6 witness: a counter going 1000 → 1500 over 1 second yields rate 500. -/
theorem calculate_rate_exact_delta_witness :
    calculate_rate 1500 (some 1000) 1 = some 500 := by
  have h := calculate_rate_exact_delta 1500 1000 1 (by norm_num) (by norm_num)
  norm_num at h
  exact h

/-- C7: on the first sample (`previous` absent) `calculate_rate` returns 0
regardless of the current value and of the elapsed time, and the cycle still
records every sampled byte counter as the baseline for the next cycle. -/
theorem calculate_rate_first_sample (current elapsed : ℚ)
    (st : TunnelPrev) (rs : TunnelReplies) :
    calculate_rate current none elapsed = some 0 ∧
    (tunnelCycle st rs).2.prev_server_bytes_in = some ((tunnelCycle st rs).1.server_bytes_in) ∧
    (tunnelCycle st rs).2.prev_server_bytes_out = some ((tunnelCycle st rs).1.server_bytes_out) ∧
    (tunnelCycle st rs).2.prev_client_bytes_in = some ((tunnelCycle st rs).1.client_bytes_in) ∧
    (tunnelCycle st rs).2.prev_client_bytes_out = some ((tunnelCycle st rs).1.client_bytes_out) :=
  ⟨rfl, rfl, rfl, rfl, rfl⟩

/-- C3 counterexample: the source compares with strict `>`, so a CPU value
exactly equal to the critical threshold 80 is classified warning (yellow),
not critical (red) as the claim asserts. -/
theorem classify_boundary_cex :
    classify 80 60 80 = Severity.warning ∧
    cpu_color 80 = Severity.warning ∧
    Severity.warning ≠ Severity.critical := by
  refine ⟨?_, ?_, by decide⟩
  · unfold classify
    norm_num
  · unfold cpu_color classify
    norm_num

/-- C3 (amended): with ordered thresholds `warn < critical` the classifier
is total and monotone but strict: it returns critical exactly when
`value > critical_threshold`, warning exactly when
`warn_threshold < value ≤ critical_threshold`, and normal exactly when
`value ≤ warn_threshold`; a value exactly equal to a threshold falls into the
lower band.  The source instantiates the thresholds at (60, 80). -/
theorem classify_strict (value warn crit : ℚ) (h : warn < crit) :
    (classify value warn crit = Severity.critical ↔ crit < value) ∧
    (classify value warn crit = Severity.warning ↔ warn < value ∧ value ≤ crit) ∧
    (classify value warn crit = Severity.normal ↔ value ≤ warn) ∧
    cpu_color value = classify value 60 80 := by
  refine ⟨?_, ?_, ?_, rfl⟩ <;>
    · unfold classify
      split_ifs with h1 h2 <;> simp_all <;> linarith

/-- C3 witness: the amended statement at value 80 with thresholds (60, 80):
the boundary value is classified warning. -/
theorem classify_strict_witness :
    (classify 80 60 80 = Severity.critical ↔ (80 : ℚ) < 80) ∧
    (classify 80 60 80 = Severity.warning ↔ (60 : ℚ) < 80 ∧ (80 : ℚ) ≤ 80) ∧
    (classify 80 60 80 = Severity.normal ↔ (80 : ℚ) ≤ 60) ∧
    cpu_color 80 = classify 80 60 80 :=
  classify_strict 80 60 80 (by norm_num)

/-- The metrics dictionary of `TransferMonitor.__init__`
(monitor_ftp_transfer.py lines 10-20), with its nine keys.  Latencies are
floats in the source, the rest are ints. -/
structure FtpMetrics where
  server_rx : ℤ
  server_tx : ℤ
  client_rx : ℤ
  client_tx : ℤ
  server_connections : ℤ
  client_connections : ℤ
  server_latency : ℚ
  client_latency : ℚ
  timestamp : ℤ
deriving DecidableEq

/-- The initial metrics dictionary: every entry 0. -/
def ftp_initial_metrics : FtpMetrics :=
  { server_rx := 0
    server_tx := 0
    client_rx := 0
    client_tx := 0
    server_connections := 0
    client_connections := 0
    server_latency := 0
    client_latency := 0
    timestamp := 0 }

/-- Python `str.split` with a one-character separator, as used with the colon
in `update_metrics` (monitor_ftp_transfer.py line 53): splitting the empty
string gives one empty part, and separators delimit possibly empty parts. -/
def splitOnChar (sep : Char) : List Char → List (List Char)
  | [] => [[]]
  | c :: cs =>
      let r := splitOnChar sep cs
      if c = sep then [] :: r
      else
        match r with
        | [] => [[c]]
        | h :: t => (c :: h) :: t

/-- Python's whitespace stripping performed by `int()` on its argument. -/
def pyStrip (cs : List Char) : List Char :=
  ((cs.dropWhile Char.isWhitespace).reverse.dropWhile Char.isWhitespace).reverse

/-- Value of a nonempty all-digit character list. -/
def digitsVal (cs : List Char) : Option ℕ :=
  if cs.isEmpty then none
  else if cs.all Char.isDigit then some (cs.foldl (fun a c => a * 10 + (c.toNat - 48)) 0)
  else none

/-- Python `int()` on a string: optional surrounding whitespace, optional
sign, then decimal digits; anything else raises `ValueError`, modelled as
`none`. -/
def pyInt (cs : List Char) : Option ℤ :=
  match pyStrip cs with
  | '+' :: rest => (digitsVal rest).map fun n => (n : ℤ)
  | '-' :: rest => (digitsVal rest).map fun n => -(n : ℤ)
  | rest => (digitsVal rest).map fun n => (n : ℤ)

/-- Embeds `rx, tx = map(int, s.split(':'))` (monitor_ftp_transfer.py
lines 53-54): succeeds only when the string has exactly two colon-separated
parts and both parse as ints; any other outcome raises and is `none`. -/
def parseThroughputPair (s : List Char) : Option (ℤ × ℤ) :=
  match splitOnChar ':' s with
  | [a, b] =>
      match pyInt a, pyInt b with
      | some x, some y => some (x, y)
      | _, _ => none
  | _ => none

/-- Embeds the try/except block of `update_metrics`
(monitor_ftp_transfer.py lines 51-56): the server string is parsed first,
then the client string, inside one `try`; if either raises, the `except`
branch sets all four throughput values to 0. -/
def parseThroughputs (server_throughput client_throughput : List Char) : ℤ × ℤ × ℤ × ℤ :=
  match parseThroughputPair server_throughput with
  | none => (0, 0, 0, 0)
  | some sp =>
      match parseThroughputPair client_throughput with
      | none => (0, 0, 0, 0)
      | some cp => (sp.1, sp.2, cp.1, cp.2)

/-- The part of `self.metrics.update({...})` (monitor_ftp_transfer.py
lines 59-63) that stores the four parsed throughput fields. -/
def ftpUpdateThroughput (m : FtpMetrics) (server_throughput client_throughput : List Char) :
    FtpMetrics :=
  let p := parseThroughputs server_throughput client_throughput
  { m with server_rx := p.1, server_tx := p.2.1, client_rx := p.2.2.1, client_tx := p.2.2.2 }

/-- Embeds the history retention of `update_metrics`
(monitor_ftp_transfer.py lines 71-74):

    self.history.append(dict(self.metrics))
    if len(self.history) > 300:
        self.history.pop(0)
-/
def historyPush {α : Type} (history : List α) (entry : α) : List α :=
  let h := history ++ [entry]
  if h.length > 300 then h.tail else h

/-- After any sequence of pushes into an initially empty history, the
retained entries are exactly the last 300, in insertion order. -/
theorem foldl_historyPush_drop {α : Type} (ms : List α) :
    List.foldl historyPush [] ms = ms.drop (ms.length - 300) := by
  induction ms using List.reverseRecOn with
  | nil => simp
  | append_singleton t x ih =>
    rw [List.foldl_append, List.foldl_cons, List.foldl_nil, ih]
    rcases lt_or_le t.length 300 with hn | hn
    · have h1 : t.length - 300 = 0 := by omega
      have h2 : (t ++ [x]).length - 300 = 0 := by
        simp only [List.length_append, List.length_cons, List.length_nil]
        omega
      have hcond : ¬ ((t ++ [x]).length > 300) := by
        simp only [List.length_append, List.length_cons, List.length_nil]
        omega
      rw [h1, h2, List.drop_zero, List.drop_zero]
      simp only [historyPush]
      rw [if_neg hcond]
    · have hlen : (t.drop (t.length - 300)).length = 300 := by
        simp only [List.length_drop]
        omega
      have hcond : (t.drop (t.length - 300) ++ [x]).length > 300 := by
        simp only [List.length_append, hlen, List.length_cons, List.length_nil]
        omega
      have hne : t.drop (t.length - 300) ≠ [] := by
        intro hnil
        rw [hnil] at hlen
        simp at hlen
      have h3 : (t ++ [x]).length - 300 = t.length - 300 + 1 := by
        simp only [List.length_append, List.length_cons, List.length_nil]
        omega
      simp only [historyPush]
      rw [if_pos hcond, List.tail_append_of_ne_nil hne, List.tail_drop, h3,
        List.drop_append_of_le_length (by omega)]

/-- C2: for every sequence of pushes the history never exceeds the cap of
300, and 301 consecutive pushes into an initially empty history leave
exactly the 2nd through 301st entries, in insertion order. -/
theorem history_cap (entries : List ℕ) :
    (List.foldl historyPush [] entries).length ≤ 300 ∧
    List.foldl historyPush [] (List.range 301) = (List.range 301).drop 1 := by
  constructor
  · rw [foldl_historyPush_drop]
    simp only [List.length_drop]
    omega
  · rw [foldl_historyPush_drop]
    simp [List.length_range]

/-- The heap of the `TransferMonitor` object, modelling Python references
explicitly: `cells` is the heap (an address is an index), `metricsRef` the
address of the live `self.metrics` dictionary, and `history` the list of
addresses held by `self.history`. -/
structure Store where
  cells : List FtpMetrics
  metricsRef : ℕ
  history : List ℕ

/-- Well-formedness: the metrics reference is a valid address, and every
history entry is a valid address distinct from the live metrics dictionary
(each was allocated fresh by `dict(self.metrics)`). -/
def StoreWF (st : Store) : Prop :=
  st.metricsRef < st.cells.length ∧
  ∀ r ∈ st.history, r < st.cells.length ∧ r ≠ st.metricsRef

/-- One publish of `update_metrics` (monitor_ftp_transfer.py lines 58-74):
`self.metrics.update({...})` overwrites all nine keys of the live dictionary
in place; `self.history.append(dict(self.metrics))` allocates a fresh copy
cell and appends its address; the cap check evicts the oldest address. -/
def updateStep (st : Store) (newVals : FtpMetrics) : Store :=
  let cells1 := st.cells.set st.metricsRef newVals
  { cells := cells1 ++ [newVals]
    metricsRef := st.metricsRef
    history := historyPush st.history cells1.length }

/-- A single publish leaves every heap cell other than the live metrics
dictionary untouched. -/
theorem updateStep_frame (st : Store) (v : FtpMetrics) (r : ℕ)
    (hne : r ≠ st.metricsRef) (hlt : r < st.cells.length) :
    (updateStep st v).cells[r]? = st.cells[r]? := by
  simp only [updateStep]
  rw [List.getElem?_append_left (by simpa using hlt)]
  exact List.getElem?_set_ne (Ne.symm hne)

/-- Any number of later publishes leaves such a cell untouched. -/
theorem foldl_updateStep_frame (vs : List FtpMetrics) (st : Store) (r : ℕ)
    (hne : r ≠ st.metricsRef) (hlt : r < st.cells.length) :
    (List.foldl updateStep st vs).cells[r]? = st.cells[r]? := by
  induction vs generalizing st with
  | nil => rfl
  | cons v t ih =>
      rw [List.foldl_cons, ih (updateStep st v) hne (by simp [updateStep]; omega)]
      exact updateStep_frame st v r hne hlt

/-- Membership in a pushed history comes from the old history or is the new
entry. -/
theorem mem_historyPush {α : Type} {l : List α} {x r : α}
    (h : r ∈ historyPush l x) : r ∈ l ++ [x] := by
  simp only [historyPush] at h
  split_ifs at h with hc
  · exact List.mem_of_mem_tail h
  · exact h

/-- A publish preserves store well-formedness. -/
theorem updateStep_wf (st : Store) (v : FtpMetrics) (hwf : StoreWF st) :
    StoreWF (updateStep st v) := by
  obtain ⟨hm, hh⟩ := hwf
  constructor
  · simp only [updateStep, List.length_append, List.length_set, List.length_cons,
      List.length_nil]
    omega
  · intro r hr
    rcases List.mem_append.mp (mem_historyPush hr) with hmem | hmem
    · obtain ⟨h1, h2⟩ := hh r hmem
      constructor
      · simp only [updateStep, List.length_append, List.length_set, List.length_cons,
          List.length_nil]
        omega
      · simpa [updateStep] using h2
    · have hr' : r = st.cells.length := by simpa using hmem
      constructor
      · simp only [updateStep, List.length_append, List.length_set, List.length_cons,
          List.length_nil, hr']
        omega
      · simp only [updateStep, hr']
        omega

/-- C10: every history entry is a fresh copy taken at publish time: the cell
a history address points to is never changed by any number of later
publishes; the publish itself stores the new values both in the live metrics
cell and in the freshly appended copy cell, and well-formedness is
preserved. -/
theorem history_entry_immutable (st : Store) (v : FtpMetrics) (vs : List FtpMetrics)
    (r : ℕ) (hwf : StoreWF st) (hr : r ∈ st.history) :
    (List.foldl updateStep st vs).cells[r]? = st.cells[r]? ∧
    (updateStep st v).cells[st.cells.length]? = some v ∧
    StoreWF (updateStep st v) := by
  obtain ⟨hm, hh⟩ := hwf
  obtain ⟨hlt, hne⟩ := hh r hr
  refine ⟨foldl_updateStep_frame vs st r hne hlt, ?_, updateStep_wf st v ⟨hm, hh⟩⟩
  have hlen : (st.cells.set st.metricsRef v).length = st.cells.length := by simp
  simp only [updateStep]
  rw [← hlen, List.getElem?_concat_length]

/-- C10 witness: a two-cell store whose history holds address 1; one further
publish leaves cell 1 unchanged, stores the copy at the fresh address, and
preserves well-formedness. -/
theorem history_entry_immutable_witness :
    (List.foldl updateStep (Store.mk [ftp_initial_metrics, ftp_initial_metrics] 0 [1])
        [ftp_initial_metrics]).cells[1]? =
      (Store.mk [ftp_initial_metrics, ftp_initial_metrics] 0 [1]).cells[1]? ∧
    (updateStep (Store.mk [ftp_initial_metrics, ftp_initial_metrics] 0 [1])
        ftp_initial_metrics).cells[(Store.mk [ftp_initial_metrics, ftp_initial_metrics] 0
          [1]).cells.length]? =
      some ftp_initial_metrics ∧
    StoreWF (updateStep (Store.mk [ftp_initial_metrics, ftp_initial_metrics] 0 [1])
      ftp_initial_metrics) :=
  history_entry_immutable (Store.mk [ftp_initial_metrics, ftp_initial_metrics] 0 [1])
    ftp_initial_metrics [ftp_initial_metrics] 1
    (by constructor
        · decide
        · intro r hr
          simp only [List.mem_singleton] at hr
          simp [hr])
    (by decide)

/-- C9: if either endpoint's throughput string fails to parse as two
colon-separated integers, all four throughput fields are set to 0 for the
cycle — including the fields of an endpoint whose own string parsed. -/
theorem throughput_parse_all_or_nothing (m : FtpMetrics) (s c : List Char)
    (h : parseThroughputPair s = none ∨ parseThroughputPair c = none) :
    (ftpUpdateThroughput m s c).server_rx = 0 ∧
    (ftpUpdateThroughput m s c).server_tx = 0 ∧
    (ftpUpdateThroughput m s c).client_rx = 0 ∧
    (ftpUpdateThroughput m s c).client_tx = 0 := by
  have hz : parseThroughputs s c = (0, 0, 0, 0) := by
    unfold parseThroughputs
    rcases h with h | h
    · rw [h]
    · cases hs : parseThroughputPair s with
      | none => rfl
      | some sp => rw [h]
  simp [ftpUpdateThroughput, hz]

/-- C9 witness: the server string "100:200" parses fine, the client string
"0" (the failure placeholder `get_snmp_value` returns) does not; all four
fields end up 0. -/
theorem throughput_parse_all_or_nothing_witness :
    (ftpUpdateThroughput ftp_initial_metrics "100:200".toList "0".toList).server_rx = 0 ∧
    (ftpUpdateThroughput ftp_initial_metrics "100:200".toList "0".toList).server_tx = 0 ∧
    (ftpUpdateThroughput ftp_initial_metrics "100:200".toList "0".toList).client_rx = 0 ∧
    (ftpUpdateThroughput ftp_initial_metrics "100:200".toList "0".toList).client_tx = 0 :=
  throughput_parse_all_or_nothing ftp_initial_metrics "100:200".toList "0".toList
    (Or.inr (by decide))

/-- The global metrics store of snmp_web_monitor.py (lines 12-17):
throughput in Mbps, a connection count and a latency. -/
structure WebMetrics where
  rx : ℚ
  tx : ℚ
  connections : ℤ
  latency : ℚ
deriving DecidableEq

/-- Outcome of one throughput sample in `update_metrics`
(snmp_web_monitor.py lines 131-139): `absent` when `get_snmp_value` returned
`None` (SNMP failure) or an empty — falsy — string; `unparseable` when a
string came back but did not parse as two colon-separated ints;
`pair` on success. -/
inductive ThroughputSample
  | absent
  | unparseable
  | pair (rxBytes txBytes : ℤ)
deriving DecidableEq

/-- Outcome of one connections sample (snmp_web_monitor.py lines 142-147). -/
inductive ConnSample
  | absent
  | unparseable
  | count (n : ℤ)
deriving DecidableEq

/-- Outcome of one latency sample (snmp_web_monitor.py lines 150-155). -/
inductive LatencySample
  | absent
  | unparseable
  | ms (v : ℚ)
deriving DecidableEq

/-- The initial global metrics (snmp_web_monitor.py lines 12-17). -/
def web_initial_metrics : WebMetrics :=
  { rx := 0, tx := 0, connections := 0, latency := 0 }

/-- One cycle of `update_metrics` of snmp_web_monitor.py (lines 126-157):
each metric is updated only when its sample was fetched and parsed; on a
failed fetch or a failed parse the handler only logs and the previously
stored value is kept (the inner try/except never propagates and the
remaining metrics of the same cycle are still processed).  A parsed
throughput of `rx:tx` bytes is stored as Mbps: `n * 8 / (1024 * 1024)`. -/
def web_update_metrics (m : WebMetrics) (t : ThroughputSample) (c : ConnSample)
    (l : LatencySample) : WebMetrics :=
  let m1 :=
    match t with
    | ThroughputSample.pair rxb txb =>
        { m with rx := (rxb : ℚ) * 8 / (1024 * 1024), tx := (txb : ℚ) * 8 / (1024 * 1024) }
    | _ => m
  let m2 :=
    match c with
    | ConnSample.count n => { m1 with connections := n }
    | _ => m1
  match l with
  | LatencySample.ms v => { m2 with latency := v }
  | _ => m2

/-- C4 counterexample: in snmp_web_monitor.py a failed sample does NOT get
the sentinel 0.  After a successful cycle stores rx = 5 Mbps, a cycle whose
throughput sample fails leaves rx at the stale 5 — while the connections
metric of that same cycle is still updated to 3. -/
theorem web_stale_not_zero_cex :
    (web_update_metrics
        (web_update_metrics web_initial_metrics (ThroughputSample.pair 655360 655360)
          (ConnSample.count 1) (LatencySample.ms 1))
        ThroughputSample.absent (ConnSample.count 3) (LatencySample.ms 2)).rx = 5 ∧
    (web_update_metrics
        (web_update_metrics web_initial_metrics (ThroughputSample.pair 655360 655360)
          (ConnSample.count 1) (LatencySample.ms 1))
        ThroughputSample.absent (ConnSample.count 3) (LatencySample.ms 2)).rx ≠ 0 ∧
    (web_update_metrics
        (web_update_metrics web_initial_metrics (ThroughputSample.pair 655360 655360)
          (ConnSample.count 1) (LatencySample.ms 1))
        ThroughputSample.absent (ConnSample.count 3) (LatencySample.ms 2)).connections = 3 := by
  refine ⟨?_, ?_, ?_⟩ <;>
    simp only [web_update_metrics, web_initial_metrics] <;>
    norm_num

/-- C4 (amended): a failed sample never propagates and never prevents the
other metrics of the same cycle.  In tunnel_monitor.py the failed sample
itself yields the sentinel 0 and every other sampled value and rate of the
cycle is computed exactly as it would have been; in snmp_web_monitor.py the
failed metric instead keeps its previously stored (stale) value while the
other metrics of the cycle are still updated. -/
theorem failed_sample_isolated (st : TunnelPrev) (rs : TunnelReplies)
    (m : WebMetrics) (c : ConnSample) (l : LatencySample) (n : ℤ) :
    get_snmp_value SnmpReply.failure = 0 ∧
    (tunnelCycle st { rs with server_bytes_in := SnmpReply.failure }).1.server_bytes_in = 0 ∧
    (tunnelCycle st { rs with server_bytes_in := SnmpReply.failure }).1.server_bytes_out =
      (tunnelCycle st rs).1.server_bytes_out ∧
    (tunnelCycle st { rs with server_bytes_in := SnmpReply.failure }).1.server_conns =
      (tunnelCycle st rs).1.server_conns ∧
    (tunnelCycle st { rs with server_bytes_in := SnmpReply.failure }).1.server_cpu =
      (tunnelCycle st rs).1.server_cpu ∧
    (tunnelCycle st { rs with server_bytes_in := SnmpReply.failure }).1.server_mem =
      (tunnelCycle st rs).1.server_mem ∧
    (tunnelCycle st { rs with server_bytes_in := SnmpReply.failure }).1.client_bytes_in =
      (tunnelCycle st rs).1.client_bytes_in ∧
    (tunnelCycle st { rs with server_bytes_in := SnmpReply.failure }).1.client_bytes_out =
      (tunnelCycle st rs).1.client_bytes_out ∧
    (tunnelCycle st { rs with server_bytes_in := SnmpReply.failure }).1.client_conns =
      (tunnelCycle st rs).1.client_conns ∧
    (tunnelCycle st { rs with server_bytes_in := SnmpReply.failure }).1.client_cpu =
      (tunnelCycle st rs).1.client_cpu ∧
    (tunnelCycle st { rs with server_bytes_in := SnmpReply.failure }).1.client_mem =
      (tunnelCycle st rs).1.client_mem ∧
    (tunnelCycle st { rs with server_bytes_in := SnmpReply.failure }).1.server_out_rate =
      (tunnelCycle st rs).1.server_out_rate ∧
    (tunnelCycle st { rs with server_bytes_in := SnmpReply.failure }).1.client_in_rate =
      (tunnelCycle st rs).1.client_in_rate ∧
    (tunnelCycle st { rs with server_bytes_in := SnmpReply.failure }).1.client_out_rate =
      (tunnelCycle st rs).1.client_out_rate ∧
    (web_update_metrics m ThroughputSample.absent c l).rx = m.rx ∧
    (web_update_metrics m ThroughputSample.absent c l).tx = m.tx ∧
    (web_update_metrics m ThroughputSample.absent (ConnSample.count n) l).connections = n := by
  refine ⟨rfl, rfl, rfl, rfl, rfl, rfl, rfl, rfl, rfl, rfl, rfl, rfl, rfl, rfl, ?_, ?_, ?_⟩
  · cases c <;> cases l <;> rfl
  · cases c <;> cases l <;> rfl
  · cases l <;> rfl

/-- JSON values, as produced by `json.dumps` in `WebHandler.do_GET`
(monitor_ftp_transfer.py lines 85-88).  Object fields keep insertion order,
as Python dicts do. -/
inductive Json
  | num (q : ℚ)
  | str (s : String)
  | arr (elems : List Json)
  | obj (fields : List (String × Json))

/-- Is a JSON value an object. -/
def isObjB : Json → Bool
  | Json.obj _ => true
  | _ => false

/-- Is a JSON value a number. -/
def isNumB : Json → Bool
  | Json.num _ => true
  | _ => false

/-- The JSON serialisation of the metrics dictionary: one flat object whose
keys are the nine metric names in insertion order
(monitor_ftp_transfer.py lines 10-20), all values numeric. -/
def metricsToJson (m : FtpMetrics) : Json :=
  Json.obj
    [ ("server_rx", Json.num m.server_rx),
      ("server_tx", Json.num m.server_tx),
      ("client_rx", Json.num m.client_rx),
      ("client_tx", Json.num m.client_tx),
      ("server_connections", Json.num m.server_connections),
      ("client_connections", Json.num m.client_connections),
      ("server_latency", Json.num m.server_latency),
      ("client_latency", Json.num m.client_latency),
      ("timestamp", Json.num m.timestamp) ]

/-- Embeds the response body of `WebHandler.do_GET` for `/metrics`
(monitor_ftp_transfer.py lines 85-88):
`json.dumps({'current': monitor.metrics, 'history': monitor.history})`. -/
def metricsResponse (current : FtpMetrics) (history : List FtpMetrics) : Json :=
  Json.obj
    [ ("current", metricsToJson current),
      ("history", Json.arr (history.map metricsToJson)) ]

/-- Modelled from the claim's words: a Snapshot as JSON must carry a
`values` object keyed by metric name, a `rates` object, and a numeric
`timestamp`. -/
def specSnapshotJson : Json → Bool
  | Json.obj fields =>
      (fields.any fun f => f.1 == "values" && isObjB f.2) &&
      (fields.any fun f => f.1 == "rates" && isObjB f.2) &&
      (fields.any fun f => f.1 == "timestamp" && isNumB f.2)
  | _ => false

/-- Modelled from the claim's words: the response must be
`{ current: { endpoint: Snapshot, ... }, history: [Snapshot, ...] }` with
every Snapshot of the claimed shape. -/
def specResponseShape : Json → Bool
  | Json.obj [(ck, Json.obj endpoints), (hk, Json.arr hist)] =>
      ck == "current" && (hk == "history" &&
        (endpoints.all (fun e => specSnapshotJson e.2) && hist.all specSnapshotJson))
  | _ => false

/-- The nine metric-name keys in dictionary insertion order. -/
def ftpMetricKeys : List String :=
  ["server_rx", "server_tx", "client_rx", "client_tx", "server_connections",
   "client_connections", "server_latency", "client_latency", "timestamp"]

/-- Modelled from the amended claim's words: one flat metrics object, keyed
directly by the nine metric names, every value numeric. -/
def flatMetricsObject : Json → Bool
  | Json.obj fields =>
      (fields.map Prod.fst == ftpMetricKeys) && fields.all (fun f => isNumB f.2)
  | _ => false

/-- Modelled from the amended claim's words: the response is an object with
exactly the keys `current` (a flat metrics object) and `history` (an array
of flat metrics objects). -/
def actualResponseShape : Json → Bool
  | Json.obj [(ck, c), (hk, Json.arr hist)] =>
      ck == "current" && (hk == "history" &&
        (flatMetricsObject c && hist.all flatMetricsObject))
  | _ => false

/-- C8 counterexample: the response the exporter actually serves (here right
after startup: initial metrics, empty history) does not have the claimed
shape — `current` maps metric names directly to numbers, with no per-endpoint
nesting and no `values`/`rates` sub-objects. -/
theorem metrics_response_shape_cex :
    specResponseShape (metricsResponse ftp_initial_metrics []) = false := by decide

/-- Every serialised metrics dictionary is a flat metrics object. -/
theorem all_flat (h : List FtpMetrics) :
    (h.map metricsToJson).all flatMetricsObject = true := by
  induction h with
  | nil => rfl
  | cons a t ih =>
      simp only [List.map_cons, List.all_cons, ih, Bool.and_true]
      rfl

/-- C8 (amended): every response of the `/metrics` endpoint is the object
`{ current: <flat metrics object>, history: [ <flat metrics object>, ... ] }`:
`current` is the metrics dictionary itself, keyed directly by the nine metric
names with numeric values and a `timestamp` field in epoch seconds; there is
no per-endpoint nesting and no `values`/`rates` sub-objects (no rates are
exported at all). -/
theorem metrics_response_flat (m : FtpMetrics) (h : List FtpMetrics) :
    actualResponseShape (metricsResponse m h) = true := by
  simp only [metricsResponse, actualResponseShape]
  rw [all_flat]
  rfl

end SSSonector
